import Mathlib

/-!
Verification of the multiplayer netcode subsystem: the authoritative game
server (`server.py`) and the network latency simulator
(`latency-simulator.py`).  Python floats are modelled as exact rationals;
Python dictionaries read through `.get` become `Option` fields; exceptions
become an explicit `PyError` component of each result.
-/

namespace Netcode

/-- 2D vector of rational coordinates, modelling the x/y float pairs used
for position and velocity in `server.py`. -/
structure Vec2 where
  x : ℚ
  y : ℚ
deriving DecidableEq

/-- Embeds the `Player` class of `server.py` (lines 18-23). -/
structure Player where
  id : String
  position : Vec2
  velocity : Vec2
  last_processed_input : Int
deriving DecidableEq

/-- Embeds `Player.__init__`: a fresh player sits at the origin with zero
velocity and `last_processed_input = 0`. -/
def Player.init (pid : String) : Player :=
  { id := pid, position := ⟨0, 0⟩, velocity := ⟨0, 0⟩, last_processed_input := 0 }

/-- A JSON movement object as the server reads it: either axis may be
absent. -/
structure Movement where
  x : Option ℚ
  y : Option ℚ
deriving DecidableEq

/-- The `input` object of an input message: the movement object and the
sequence number may each be absent. -/
structure InputData where
  movement : Option Movement
  sequenceNumber : Option Int
deriving DecidableEq

/-- Exceptions the embedded Python code paths can raise. -/
inductive PyError where
  | keyError (key : String)
  | attributeError (attr : String)
deriving DecidableEq

/-- The x axis exactly as `validate_input` reads it: `input_data.get("movement", ...)`
with an empty-object default, then `movement.get("x", 0)`; an absent axis
reads as 0. -/
def input_axis_x (d : InputData) : ℚ :=
  ((d.movement.getD ⟨none, none⟩).x).getD 0

/-- The y axis exactly as `validate_input` reads it. -/
def input_axis_y (d : InputData) : ℚ :=
  ((d.movement.getD ⟨none, none⟩).y).getD 0

/-- Embeds `GameServer.validate_input` (server.py lines 107-117): reject
exactly when either axis magnitude exceeds 1. -/
def validate_input (d : InputData) : Bool :=
  if 1 < |input_axis_x d| ∨ 1 < |input_axis_y d| then false else true

/-- The speed constant of `apply_input` (5.0 meters per second). -/
def speed : ℚ := 5

/-- Embeds `GameServer.apply_input` (server.py lines 119-134).  The movement
object defaults to an object carrying both axes as 0 when the `movement`
key is absent, but a *present* movement object is indexed directly
(`movement["x"]`, `movement["y"]`), which raises `KeyError` for a missing
axis.  Python mutates the player in place, so a `KeyError` on the y axis
leaves the x position already updated (and unclamped). -/
def apply_input (player : Player) (d : InputData) (delta_time : ℚ) :
    Player × Option PyError :=
  let movement := d.movement.getD ⟨some 0, some 0⟩
  match movement.x with
  | none => (player, some (.keyError "x"))
  | some mx =>
    let p1 := { player with
      position := ⟨player.position.x + mx * speed * delta_time, player.position.y⟩ }
    match movement.y with
    | none => (p1, some (.keyError "y"))
    | some my =>
      let p2 := { p1 with
        position := ⟨p1.position.x, p1.position.y + my * speed * delta_time⟩ }
      let p3 := { p2 with velocity := ⟨mx * speed, my * speed⟩ }
      let p4 := { p3 with
        position := ⟨max (-50) (min 50 p3.position.x), p3.position.y⟩ }
      let p5 := { p4 with
        position := ⟨p4.position.x, max (-50) (min 50 p4.position.y)⟩ }
      (p5, none)

/-- Connection handles; Python keys the client registry by websocket
object. -/
abbrev Conn := Nat

/-- Embeds the `GameServer` state (server.py lines 33-38); the client
registry is an insertion-ordered map from connection to player, as a Python
dict with unique keys. -/
structure GameServer where
  clients : List (Conn × Player)
  tick_rate : Nat
  tick_interval : ℚ
  next_client_id : Nat
deriving DecidableEq

/-- Python `self.clients.get(websocket)`: the value at the first matching
key, else `none`. -/
def lookupClient (ws : Conn) : List (Conn × Player) → Option Player
  | [] => none
  | (k, p) :: rest => if k = ws then some p else lookupClient ws rest

/-- In-place mutation of an existing registry entry. -/
def updateClient (ws : Conn) (p : Player) : List (Conn × Player) → List (Conn × Player)
  | [] => []
  | (k, q) :: rest => if k = ws then (k, p) :: rest else (k, q) :: updateClient ws p rest

/-- Python `del d[key]` on the registry: removes the first matching
entry (the caller must check presence; see `unregister`). -/
def removeClient (ws : Conn) : List (Conn × Player) → List (Conn × Player)
  | [] => []
  | (k, q) :: rest => if k = ws then rest else (k, q) :: removeClient ws rest

/-- Outbound wire messages the embedded handlers can emit. -/
inductive OutMsg where
  | pong (sentAt : Option ℚ)
  | playerLeft (playerId : String)
deriving DecidableEq

/-- Embeds `GameServer.handle_input` (server.py lines 88-105).  Returns the
new server state, the messages sent (paired with their destination
connection), and the exception escaping the handler, if any.  An unknown
connection returns immediately; a command failing validation is dropped
with only a server-side print; otherwise `apply_input` runs and
`last_processed_input` is set unconditionally from
`input_data.get("sequenceNumber", 0)`. -/
def handle_input (s : GameServer) (ws : Conn) (dataInput : Option InputData) :
    GameServer × List (Conn × OutMsg) × Option PyError :=
  match lookupClient ws s.clients with
  | none => (s, [], none)
  | some player =>
    let input_data := dataInput.getD ⟨none, none⟩
    if validate_input input_data = false then
      (s, [], none)
    else
      match apply_input player input_data s.tick_interval with
      | (p1, some e) =>
        ({ s with clients := updateClient ws p1 s.clients }, [], some e)
      | (p1, none) =>
        let p2 := { p1 with
          last_processed_input := input_data.sequenceNumber.getD 0 }
        ({ s with clients := updateClient ws p2 s.clients }, [], none)

/-- The fields of a parsed JSON object message that the handlers read. -/
structure MsgData where
  type_ : Option String
  input : Option InputData
  sentAt : Option ℚ
deriving DecidableEq

/-- An inbound text frame as the server's parse step classifies it: text
that is not valid JSON, valid JSON whose top level is not an object (a
list, number, string, ...), or an object projected to the fields the code
reads. -/
inductive InMsg where
  | invalidJson
  | jsonNonObject
  | jsonObject (d : MsgData)
deriving DecidableEq

/-- Embeds `GameServer.handle_message` (server.py lines 72-86) together
with `handle_ping` (lines 136-141).  Only `json.JSONDecodeError` is caught;
when the decoded value is not an object, `data.get("type")` raises
`AttributeError`, which escapes the handler. -/
def handle_message (s : GameServer) (ws : Conn) (m : InMsg) :
    GameServer × List (Conn × OutMsg) × Option PyError :=
  match m with
  | .invalidJson => (s, [], none)
  | .jsonNonObject => (s, [], some (.attributeError "get"))
  | .jsonObject d =>
    match d.type_ with
    | some "input" => handle_input s ws d.input
    | some "ping" => (s, [(ws, .pong d.sentAt)], none)
    | _ => (s, [], none)

/-- Embeds `GameServer.broadcast` (server.py lines 158-169): the message is
sent to every currently registered connection; with no clients nothing is
sent. -/
def broadcast (s : GameServer) (m : OutMsg) : List (Conn × OutMsg) :=
  s.clients.map fun c => (c.1, m)

/-- Embeds the registry cleanup in `handle_client`'s `finally` block
(server.py line 66): Python `del self.clients[websocket]` removes the entry
when present and raises `KeyError` when absent. -/
def unregister (s : GameServer) (ws : Conn) : GameServer × Option PyError :=
  match lookupClient ws s.clients with
  | some _ => ({ s with clients := removeClient ws s.clients }, none)
  | none => (s, some (.keyError "websocket"))

/-- Result of one iteration of the per-client message loop: new server
state, messages sent, and whether the connection survives the iteration. -/
structure ClientStepResult where
  server : GameServer
  sent : List (Conn × OutMsg)
  connection_open : Bool
deriving DecidableEq

/-- One iteration of the message loop in `handle_client` (server.py lines
59-70).  When `handle_message` raises, the exception is not
`ConnectionClosed`, so it propagates out of the loop; the `finally` block
deletes the registry entry and broadcasts `playerLeft` (here `client_id` is
the id captured at connect time) to the remaining clients, and the
connection dies. -/
def client_loop_step (s : GameServer) (ws : Conn) (client_id : String) (m : InMsg) :
    ClientStepResult :=
  match handle_message s ws m with
  | (s1, out, none) => ⟨s1, out, true⟩
  | (s1, out, some _) =>
    let s2 := (unregister s1 ws).1
    ⟨s2, out ++ broadcast s2 (.playerLeft client_id), false⟩

/-- A chunk: one unit of bytes obtained by a single `reader.read(4096)`
call in the proxy's forwarding loop. -/
abbrev Chunk := List Nat

/-- Embeds `LatencySimulator.should_drop_packet` (latency-simulator.py
lines 44-46): `u` is the `random.random()` draw from the unit interval,
and the chunk is dropped exactly when `u < packet_loss_rate`. -/
def should_drop_packet (packet_loss_rate u : ℚ) : Bool :=
  decide (u < packet_loss_rate)

/-- Embeds `LatencySimulator.calculate_delay` (latency-simulator.py lines
34-42): `u` is the `random.uniform(-jitter_ms, jitter_ms)` draw, consulted
only when `jitter_ms > 0`; the result is in seconds (ms divided by
1000). -/
def calculate_delay (base_latency_ms jitter_ms u : ℚ) : ℚ :=
  (if 0 < jitter_ms then max 0 (base_latency_ms + u) else base_latency_ms) / 1000

/-- Statistics and outputs of one forwarding loop: the counters kept by
`LatencySimulator.__init__` (lines 30-32), the chunks actually written to
the destination in order, and the delay imposed on each written chunk. -/
structure FwdStats where
  packets_sent : Nat
  packets_dropped : Nat
  total_delay : ℚ
  written : List Chunk
  delays : List ℚ
deriving DecidableEq

/-- The zeroed statistics set up by `LatencySimulator.__init__`. -/
def initStats : FwdStats := ⟨0, 0, 0, [], []⟩

/-- Embeds the loop body of `LatencySimulator.forward` (latency-simulator.py
lines 73-99) over a finite stream of reads: each element carries the chunk,
the drop draw and the jitter draw for that iteration.  Every read
increments `packets_sent`; a dropped chunk increments `packets_dropped` and
is never written; a surviving chunk is delayed by `calculate_delay` and
then written. -/
def forward (rate base jitter : ℚ) :
    List (Chunk × ℚ × ℚ) → FwdStats → FwdStats
  | [], st => st
  | (c, uDrop, uJit) :: rest, st =>
    let st1 := { st with packets_sent := st.packets_sent + 1 }
    if should_drop_packet rate uDrop then
      forward rate base jitter rest
        { st1 with packets_dropped := st1.packets_dropped + 1 }
    else
      let d := calculate_delay base jitter uJit
      forward rate base jitter rest
        { st1 with
          total_delay := st1.total_delay + d,
          written := st1.written ++ [c],
          delays := st1.delays ++ [d] }

/-- The parsed command-line arguments of the simulator (latency-simulator.py
lines 141-186). -/
structure Args where
  target_host : String
  target_port : Nat
  listen_port : Nat
  latency : Int
  jitter : Int
  packet_loss : ℚ
deriving DecidableEq

/-- The network-condition configuration a constructed `LatencySimulator`
carries. -/
structure SimCfg where
  base_latency_ms : Int
  packet_loss_rate : ℚ
  jitter_ms : Int
deriving DecidableEq

/-- Outcome of running `main` (latency-simulator.py lines 140-207): either
the configuration is rejected — a diagnostic is printed, `main` returns,
and the interpreter exits with the recorded status — or the simulator is
constructed and `start` opens the listening socket. -/
inductive MainOutcome where
  | rejected (diagnostic : String) (exit_status : Nat)
  | startProxy (cfg : SimCfg)
deriving DecidableEq

/-- Projects the process exit status when `main` rejected the
configuration. -/
def MainOutcome.exitStatus : MainOutcome → Option Nat
  | .rejected _ c => some c
  | .startProxy _ => none

/-- Embeds `main` of latency-simulator.py (lines 140-207).  An out-of-range
packet loss rate or a negative latency prints an error and returns from
`main` before any socket is opened; the interpreter then exits normally,
with status 0.  Otherwise the simulator is built and started. -/
def latencySimMain (args : Args) : MainOutcome :=
  if args.packet_loss < 0 ∨ 1 < args.packet_loss then
    .rejected "Error: Packet loss must be between 0.0 and 1.0" 0
  else if args.latency < 0 then
    .rejected "Error: Latency must be >= 0" 0
  else
    .startProxy ⟨args.latency, args.packet_loss, args.jitter⟩

/-- A server with an empty registry (fresh `GameServer.__init__`). -/
def s_empty : GameServer := ⟨[], 20, 1/20, 0⟩

/-- A server holding one freshly connected client on connection 0. -/
def s_one : GameServer := ⟨[(0, Player.init "0")], 20, 1/20, 1⟩

/-- A player whose last processed input is already 10, for exercising the
unconditional sequence-number overwrite. -/
def player_ten : Player := { Player.init "0" with last_processed_input := 10 }

/-- A server holding `player_ten` on connection 0. -/
def s_oldseq : GameServer := ⟨[(0, player_ten)], 20, 1/20, 1⟩

/-- A well-formed input command with sequence number 3 and movement (1,0). -/
def d_seq3 : InputData := ⟨some ⟨some 1, some 0⟩, some 3⟩

theorem lookupClient_updateClient (ws : Conn) (p q : Player)
    (l : List (Conn × Player)) (h : lookupClient ws l = some q) :
    lookupClient ws (updateClient ws p l) = some p := by
  induction l with
  | nil => simp [lookupClient] at h
  | cons hd tl ih =>
    obtain ⟨k, r⟩ := hd
    by_cases hk : k = ws
    · subst hk
      simp [lookupClient, updateClient]
    · simp [lookupClient, updateClient, hk] at h ⊢
      exact ih h

theorem forward_cons_drop (rate base jitter : ℚ) (c : Chunk) (uD uJ : ℚ)
    (rest : List (Chunk × ℚ × ℚ)) (st : FwdStats)
    (hd : should_drop_packet rate uD = true) :
    forward rate base jitter ((c, uD, uJ) :: rest) st
      = forward rate base jitter rest
          { st with packets_sent := st.packets_sent + 1,
                    packets_dropped := st.packets_dropped + 1 } := by
  simp [forward, hd]

theorem forward_cons_keep (rate base jitter : ℚ) (c : Chunk) (uD uJ : ℚ)
    (rest : List (Chunk × ℚ × ℚ)) (st : FwdStats)
    (hd : should_drop_packet rate uD = false) :
    forward rate base jitter ((c, uD, uJ) :: rest) st
      = forward rate base jitter rest
          { st with packets_sent := st.packets_sent + 1,
                    total_delay := st.total_delay + calculate_delay base jitter uJ,
                    written := st.written ++ [c],
                    delays := st.delays ++ [calculate_delay base jitter uJ] } := by
  simp [forward, hd]

theorem forward_rate_one (base jitter : ℚ) :
    ∀ (l : List (Chunk × ℚ × ℚ)) (st : FwdStats), (∀ e ∈ l, e.2.1 < 1) →
      (forward 1 base jitter l st).written = st.written ∧
      (forward 1 base jitter l st).delays = st.delays ∧
      (forward 1 base jitter l st).packets_sent = st.packets_sent + l.length ∧
      (forward 1 base jitter l st).packets_dropped = st.packets_dropped + l.length := by
  intro l
  induction l with
  | nil =>
    intro st h
    simp [forward]
  | cons e rest ih =>
    intro st h
    obtain ⟨c, uD, uJ⟩ := e
    have hu : uD < 1 := h (c, uD, uJ) (List.mem_cons_self _ _)
    have hd : should_drop_packet 1 uD = true := by
      simpa [should_drop_packet] using hu
    have hrest : ∀ e ∈ rest, e.2.1 < 1 := fun e he => h e (List.mem_cons_of_mem _ he)
    rw [forward_cons_drop 1 base jitter c uD uJ rest st hd]
    obtain ⟨hw, hdl, hs, hdp⟩ := ih ⟨st.packets_sent + 1, st.packets_dropped + 1, st.total_delay, st.written, st.delays⟩ hrest
    refine ⟨hw.trans rfl, hdl.trans rfl, ?_, ?_⟩
    · rw [hs]
      show st.packets_sent + 1 + rest.length = st.packets_sent + (rest.length + 1)
      omega
    · rw [hdp]
      show st.packets_dropped + 1 + rest.length = st.packets_dropped + (rest.length + 1)
      omega

theorem forward_rate_zero (base jitter : ℚ) :
    ∀ (l : List (Chunk × ℚ × ℚ)) (st : FwdStats), (∀ e ∈ l, 0 ≤ e.2.1) →
      (forward 0 base jitter l st).packets_dropped = st.packets_dropped ∧
      (forward 0 base jitter l st).written = st.written ++ l.map Prod.fst := by
  intro l
  induction l with
  | nil =>
    intro st h
    simp [forward]
  | cons e rest ih =>
    intro st h
    obtain ⟨c, uD, uJ⟩ := e
    have hu : 0 ≤ uD := h (c, uD, uJ) (List.mem_cons_self _ _)
    have hd : should_drop_packet 0 uD = false := by
      simp [should_drop_packet, not_lt.2 hu]
    have hrest : ∀ e ∈ rest, 0 ≤ e.2.1 := fun e he => h e (List.mem_cons_of_mem _ he)
    rw [forward_cons_keep 0 base jitter c uD uJ rest st hd]
    obtain ⟨hdp, hw⟩ := ih ⟨st.packets_sent + 1, st.packets_dropped, st.total_delay + calculate_delay base jitter uJ, st.written ++ [c], st.delays ++ [calculate_delay base jitter uJ]⟩ hrest
    refine ⟨hdp.trans rfl, ?_⟩
    rw [hw]
    show st.written ++ [c] ++ rest.map Prod.fst = st.written ++ (c :: rest.map Prod.fst)
    simp

theorem forward_delays_const (rate base : ℚ) :
    ∀ (l : List (Chunk × ℚ × ℚ)) (st : FwdStats),
      (∀ d ∈ st.delays, d = base / 1000) →
      ∀ d ∈ (forward rate base 0 l st).delays, d = base / 1000 := by
  intro l
  induction l with
  | nil =>
    intro st h
    simpa [forward] using h
  | cons e rest ih =>
    intro st h
    obtain ⟨c, uD, uJ⟩ := e
    by_cases hd : should_drop_packet rate uD = true
    · rw [forward_cons_drop rate base 0 c uD uJ rest st hd]
      exact ih _ h
    · rw [forward_cons_keep rate base 0 c uD uJ rest st (by simpa using hd)]
      refine ih _ ?_
      intro d hdm
      rcases List.mem_append.1 hdm with hin | hin
      · exact h d hin
      · have hc : d = calculate_delay base 0 uJ := by simpa using hin
        rw [hc]
        simp [calculate_delay]

/-- C5: a chunk is dropped exactly when the uniform draw is below the
packet loss rate; with rate 1 (draws lie in `[0,1)`) no chunk is ever
forwarded and the dropped count equals the sent count; with rate 0 no chunk
is ever dropped and every chunk is forwarded in order. -/
theorem packet_loss_extremes (l : List (Chunk × ℚ × ℚ)) (base jitter : ℚ)
    (h : ∀ e ∈ l, 0 ≤ e.2.1 ∧ e.2.1 < 1) :
    (∀ rate u : ℚ, should_drop_packet rate u = true ↔ u < rate) ∧
    (forward 1 base jitter l initStats).written = [] ∧
    (forward 1 base jitter l initStats).packets_dropped
      = (forward 1 base jitter l initStats).packets_sent ∧
    (forward 0 base jitter l initStats).packets_dropped = 0 ∧
    (forward 0 base jitter l initStats).written = l.map Prod.fst := by
  obtain ⟨hw, hdl, hs, hdp⟩ :=
    forward_rate_one base jitter l initStats (fun e he => (h e he).2)
  obtain ⟨hdp0, hw0⟩ :=
    forward_rate_zero base jitter l initStats (fun e he => (h e he).1)
  refine ⟨fun rate u => by simp [should_drop_packet], ?_, ?_, ?_, ?_⟩
  · rw [hw]; rfl
  · rw [hdp, hs]; rfl
  · rw [hdp0]; rfl
  · rw [hw0]; simp [initStats]

/-- Witness for C5: on a concrete two-chunk stream with draws 1/2 and 0,
rate 1 forwards nothing and drops everything sent, and rate 0 drops
nothing. -/
theorem packet_loss_extremes_witness :
    (forward 1 100 0 [([1, 2], 1/2, 0), ([3], 0, 0)] initStats).written = [] ∧
    (forward 1 100 0 [([1, 2], 1/2, 0), ([3], 0, 0)] initStats).packets_dropped
      = (forward 1 100 0 [([1, 2], 1/2, 0), ([3], 0, 0)] initStats).packets_sent ∧
    (forward 0 100 0 [([1, 2], 1/2, 0), ([3], 0, 0)] initStats).packets_dropped = 0 := by
  have h := packet_loss_extremes [([1, 2], 1/2, 0), ([3], 0, 0)] 100 0
    (by intro e he; fin_cases he <;> norm_num)
  exact ⟨h.2.1, h.2.2.1, h.2.2.2.1⟩

/-- C6: the delay imposed on a non-dropped chunk is
`max 0 (baseLatencyMs + u)` milliseconds for some `u` in
`[-jitterMs, jitterMs]` (for a valid configuration: nonnegative base and
jitter), hence never negative; with zero jitter it is exactly the base
latency, and every recorded per-chunk delay of a zero-jitter forwarding run
equals `baseLatencyMs/1000` seconds. -/
theorem delay_formula (base jitter u : ℚ)
    (hb : 0 ≤ base) (hj : 0 ≤ jitter) (hu1 : -jitter ≤ u) (hu2 : u ≤ jitter) :
    (∃ u2, -jitter ≤ u2 ∧ u2 ≤ jitter ∧
      calculate_delay base jitter u * 1000 = max 0 (base + u2)) ∧
    0 ≤ calculate_delay base jitter u ∧
    (jitter = 0 → calculate_delay base jitter u = base / 1000) ∧
    (∀ rate : ℚ, ∀ l : List (Chunk × ℚ × ℚ),
      ∀ d2 ∈ (forward rate base 0 l initStats).delays, d2 = base / 1000) := by
  refine ⟨?_, ?_, ?_, ?_⟩
  · by_cases hjp : 0 < jitter
    · refine ⟨u, hu1, hu2, ?_⟩
      rw [calculate_delay, if_pos hjp, div_mul_cancel₀ _ (by norm_num : (1000:ℚ) ≠ 0)]
    · have hj0 : jitter = 0 := le_antisymm (not_lt.1 hjp) hj
      subst hj0
      refine ⟨0, by norm_num, by norm_num, ?_⟩
      rw [calculate_delay, if_neg (lt_irrefl 0), div_mul_cancel₀ _ (by norm_num : (1000:ℚ) ≠ 0)]
      rw [add_zero, max_eq_right hb]
  · rw [calculate_delay]
    by_cases hjp : 0 < jitter
    · rw [if_pos hjp]
      exact div_nonneg (le_max_left _ _) (by norm_num)
    · rw [if_neg hjp]
      exact div_nonneg hb (by norm_num)
  · intro hj0
    simp [calculate_delay, hj0]
  · intro rate l
    exact forward_delays_const rate base l initStats (by simp [initStats])

/-- Witness for C6: with base latency 100 ms and zero jitter the computed
delay is nonnegative and equals exactly 100/1000 seconds. -/
theorem delay_formula_witness :
    0 ≤ calculate_delay 100 0 0 ∧ calculate_delay 100 0 0 = 100 / 1000 := by
  have h := delay_formula 100 0 0 (by norm_num) (by norm_num) (by norm_num) (by norm_num)
  exact ⟨h.2.1, h.2.2.1 rfl⟩

/-- C1: for every player and valid input command (both axes in `[-1,1]`)
applied with the speed constant 5.0 and a non-negative `deltaTime`,
`apply_input` succeeds, sets velocity to `(mx*5, my*5)`, sets each position
axis to the clamp into `[-50,50]` of `oldPosition + velocity*deltaTime`,
and the resulting position lies within the world rectangle. -/
theorem apply_input_clamped_bounds (player : Player) (mx my dt : ℚ) (seq : Option Int)
    (hmx : |mx| ≤ 1) (hmy : |my| ≤ 1) (hdt : 0 ≤ dt) :
    (apply_input player ⟨some ⟨some mx, some my⟩, seq⟩ dt).2 = none ∧
    (apply_input player ⟨some ⟨some mx, some my⟩, seq⟩ dt).1.velocity
      = ⟨mx * speed, my * speed⟩ ∧
    (apply_input player ⟨some ⟨some mx, some my⟩, seq⟩ dt).1.position.x
      = max (-50) (min 50 (player.position.x + mx * speed * dt)) ∧
    (apply_input player ⟨some ⟨some mx, some my⟩, seq⟩ dt).1.position.y
      = max (-50) (min 50 (player.position.y + my * speed * dt)) ∧
    -50 ≤ (apply_input player ⟨some ⟨some mx, some my⟩, seq⟩ dt).1.position.x ∧
    (apply_input player ⟨some ⟨some mx, some my⟩, seq⟩ dt).1.position.x ≤ 50 ∧
    -50 ≤ (apply_input player ⟨some ⟨some mx, some my⟩, seq⟩ dt).1.position.y ∧
    (apply_input player ⟨some ⟨some mx, some my⟩, seq⟩ dt).1.position.y ≤ 50 := by
  have hx : (apply_input player ⟨some ⟨some mx, some my⟩, seq⟩ dt).1.position.x
      = max (-50) (min 50 (player.position.x + mx * speed * dt)) := rfl
  have hy : (apply_input player ⟨some ⟨some mx, some my⟩, seq⟩ dt).1.position.y
      = max (-50) (min 50 (player.position.y + my * speed * dt)) := rfl
  refine ⟨rfl, rfl, hx, hy, ?_, ?_, ?_, ?_⟩
  · rw [hx]; exact le_max_left _ _
  · rw [hx]; exact max_le (by norm_num) (min_le_left _ _)
  · rw [hy]; exact le_max_left _ _
  · rw [hy]; exact max_le (by norm_num) (min_le_left _ _)

/-- Witness for C1: from `(0,0)` the input `(1,0)` over `deltaTime = 0.1`
yields position `(0.5, 0)` and velocity `(5, 0)`; from `(49.8, 0)` the same
input would reach `50.3` and is clamped to `(50, 0)`. -/
theorem apply_input_clamped_bounds_witness :
    (apply_input (Player.init "0") ⟨some ⟨some 1, some 0⟩, some 1⟩ (1/10)).1.position.x = 1/2 ∧
    (apply_input (Player.init "0") ⟨some ⟨some 1, some 0⟩, some 1⟩ (1/10)).1.position.y = 0 ∧
    (apply_input (Player.init "0") ⟨some ⟨some 1, some 0⟩, some 1⟩ (1/10)).1.velocity.x = 5 ∧
    (apply_input (Player.init "0") ⟨some ⟨some 1, some 0⟩, some 1⟩ (1/10)).1.velocity.y = 0 ∧
    (apply_input { Player.init "1" with position := ⟨249/5, 0⟩ }
        ⟨some ⟨some 1, some 0⟩, some 2⟩ (1/10)).1.position.x = 50 ∧
    (apply_input { Player.init "1" with position := ⟨249/5, 0⟩ }
        ⟨some ⟨some 1, some 0⟩, some 2⟩ (1/10)).1.position.y = 0 := by
  have h1 := apply_input_clamped_bounds (Player.init "0") 1 0 (1/10) (some 1)
    (by norm_num) (by norm_num) (by norm_num)
  have h2 := apply_input_clamped_bounds { Player.init "1" with position := ⟨249/5, 0⟩ }
    1 0 (1/10) (some 2) (by norm_num) (by norm_num) (by norm_num)
  obtain ⟨-, hv1, hx1, hy1, -⟩ := h1
  obtain ⟨-, hv2, hx2, hy2, -⟩ := h2
  refine ⟨?_, ?_, ?_, ?_, ?_, ?_⟩
  · rw [hx1]; norm_num [Player.init, speed, min_def, max_def]
  · rw [hy1]; norm_num [Player.init, speed, min_def, max_def]
  · rw [hv1]; norm_num [speed]
  · rw [hv1]; norm_num [speed]
  · rw [hx2]; norm_num [Player.init, speed, min_def, max_def]
  · rw [hy2]; norm_num [Player.init, speed, min_def, max_def]

/-- C2: an input command whose movement axis (as the server reads it)
exceeds magnitude 1 fails `validate_input`, and `handle_input` leaves the
entire server state unchanged, sends nothing to any client, and raises
nothing. -/
theorem invalid_input_silently_dropped (s : GameServer) (ws : Conn) (player : Player)
    (d : InputData) (hlook : lookupClient ws s.clients = some player)
    (hbad : 1 < |input_axis_x d| ∨ 1 < |input_axis_y d|) :
    validate_input d = false ∧ handle_input s ws (some d) = (s, [], none) := by
  have hv : validate_input d = false := by
    unfold validate_input
    rw [if_pos hbad]
  exact ⟨hv, by simp [handle_input, hlook, hv]⟩

/-- Witness for C2: the command with movement `(2,0)` is rejected on the
one-client server and nothing changes. -/
theorem invalid_input_silently_dropped_witness :
    validate_input ⟨some ⟨some 2, some 0⟩, some 5⟩ = false ∧
    handle_input s_one 0 (some ⟨some ⟨some 2, some 0⟩, some 5⟩) = (s_one, [], none) :=
  invalid_input_silently_dropped s_one 0 (Player.init "0") ⟨some ⟨some 2, some 0⟩, some 5⟩
    rfl (Or.inl (by norm_num [input_axis_x]))

/-- C3 (code bug): the spec requires missing axes to read as 0 with no
exception, and `validate_input` indeed does so, but `apply_input` indexes a
present movement object directly, so a movement object carrying only the x
axis passes validation and then raises `KeyError` on `movement["y"]`; the
exception escapes `handle_input`. -/
theorem partial_movement_raises_keyError :
    validate_input ⟨some ⟨some 1, none⟩, some 7⟩ = true ∧
    (apply_input (Player.init "0") ⟨some ⟨some 1, none⟩, some 7⟩ (1/20)).2
      = some (.keyError "y") ∧
    (handle_input s_one 0 (some ⟨some ⟨some 1, none⟩, some 7⟩)).2.2
      = some (.keyError "y") := by
  refine ⟨?_, rfl, ?_⟩
  · simp [validate_input, input_axis_x, input_axis_y]
  · have hv : validate_input ⟨some ⟨some 1, none⟩, some 7⟩ = true := by
      simp [validate_input, input_axis_x, input_axis_y]
    simp [handle_input, s_one, lookupClient, hv, apply_input]

/-- C4: after a successfully applied command carrying sequence number
`seq`, the player's `last_processed_input` equals `seq`, with no
monotonicity condition relating `seq` to the previously stored value; a
command failing validation leaves the server (hence `last_processed_input`)
unchanged. -/
theorem lastProcessedInput_set_unconditionally (s : GameServer) (ws : Conn)
    (player : Player) (d : InputData)
    (hlook : lookupClient ws s.clients = some player) :
    (∀ seq : Int, d.sequenceNumber = some seq → validate_input d = true →
      (apply_input player d s.tick_interval).2 = none →
      ∃ p2, lookupClient ws (handle_input s ws (some d)).1.clients = some p2 ∧
        p2.last_processed_input = seq) ∧
    (validate_input d = false → handle_input s ws (some d) = (s, [], none)) := by
  constructor
  · intro seq hseq hval happ
    obtain ⟨p1, hp1⟩ : ∃ p1, apply_input player d s.tick_interval = (p1, none) :=
      ⟨(apply_input player d s.tick_interval).1, by rw [← happ]⟩
    refine ⟨{ p1 with last_processed_input := d.sequenceNumber.getD 0 }, ?_, ?_⟩
    · simp [handle_input, hlook, hval, hp1]
      exact lookupClient_updateClient ws _ player s.clients hlook
    · simp [hseq]
  · intro hval
    simp [handle_input, hlook, hval]

/-- Witness for C4: on a player whose stored value is 10, applying a valid
command with the smaller sequence number 3 overwrites the stored value with
3. -/
theorem lastProcessedInput_set_unconditionally_witness :
    player_ten.last_processed_input = 10 ∧
    ∃ p2, lookupClient 0 (handle_input s_oldseq 0 (some d_seq3)).1.clients = some p2 ∧
      p2.last_processed_input = 3 :=
  ⟨rfl,
    (lastProcessedInput_set_unconditionally s_oldseq 0 player_ten d_seq3 rfl).1 3 rfl
      (by simp [validate_input, input_axis_x, input_axis_y, d_seq3]) rfl⟩

/-- C7 (code bug): the spec requires malformed inbound messages to be
logged or ignored with the connection open and the registry entry intact;
invalid JSON and unknown types are indeed ignored, but valid JSON whose top
level is not an object makes `data.get("type")` raise `AttributeError`,
which only `json.JSONDecodeError` handling cannot catch: the exception
escapes, the registry entry is deleted, and the connection dies. -/
theorem nonobject_json_kills_connection :
    handle_message s_one 0 .invalidJson = (s_one, [], none) ∧
    handle_message s_one 0 (.jsonObject ⟨some "bogus", none, none⟩) = (s_one, [], none) ∧
    handle_message s_one 0 .jsonNonObject = (s_one, [], some (.attributeError "get")) ∧
    client_loop_step s_one 0 "0" .jsonNonObject = ⟨⟨[], 20, 1/20, 1⟩, [], false⟩ :=
  ⟨rfl, rfl, rfl, rfl⟩

/-- C8 (corrected): an out-of-range packet loss rate or negative latency is
rejected before the proxy starts listening with a printed diagnostic, but
`main` merely returns, so the interpreter exits with status 0, not a
non-zero status. -/
theorem config_rejected_exit_zero (args : Args)
    (h : args.packet_loss < 0 ∨ 1 < args.packet_loss ∨ args.latency < 0) :
    ∃ msg, latencySimMain args = .rejected msg 0 := by
  unfold latencySimMain
  by_cases h1 : args.packet_loss < 0 ∨ 1 < args.packet_loss
  · rw [if_pos h1]
    exact ⟨_, rfl⟩
  · have h2 : args.latency < 0 := by
      rcases h with ha | hb | hc
      · exact absurd (Or.inl ha) h1
      · exact absurd (Or.inr hb) h1
      · exact hc
    rw [if_neg h1, if_pos h2]
    exact ⟨_, rfl⟩

/-- Witness for C8 (corrected): a negative latency is rejected with exit
status 0. -/
theorem config_rejected_exit_zero_witness :
    ∃ msg, latencySimMain ⟨"localhost", 3000, 3001, -5, 0, 0⟩ = .rejected msg 0 :=
  config_rejected_exit_zero ⟨"localhost", 3000, 3001, -5, 0, 0⟩
    (Or.inr (Or.inr (by norm_num)))

/-- Counterexample for C8 as stated: with packet loss 1.5 the configuration
is rejected with the documented diagnostic, yet the recorded exit status is
0 — not the non-zero status the claim demands. -/
theorem config_rejected_counterexample :
    latencySimMain ⟨"localhost", 3000, 3001, 100, 0, 3/2⟩
      = .rejected "Error: Packet loss must be between 0.0 and 1.0" 0 := by
  norm_num [latencySimMain]

/-- C9 (corrected): removing a present registry entry succeeds, but
removing an absent one raises `KeyError` instead of being a silent no-op
(the registry is left unchanged in that case). -/
theorem unregister_behaviour (s : GameServer) (ws : Conn) :
    (∀ p, lookupClient ws s.clients = some p →
      unregister s ws = ({ s with clients := removeClient ws s.clients }, none)) ∧
    (lookupClient ws s.clients = none →
      unregister s ws = (s, some (.keyError "websocket"))) := by
  constructor
  · intro p hp
    simp [unregister, hp]
  · intro h
    simp [unregister, h]

/-- Witness for C9 (corrected): unregistering on an empty registry raises
`KeyError` and leaves the registry unchanged. -/
theorem unregister_behaviour_witness :
    unregister s_empty 0 = (s_empty, some (.keyError "websocket")) :=
  (unregister_behaviour s_empty 0).2 rfl

/-- Counterexample for C9 as stated: unregistering connection 0 twice makes
the second removal raise `KeyError`, so unregistering an already-removed
connection is not an error-free no-op. -/
theorem unregister_not_idempotent_counterexample :
    (unregister (unregister s_one 0).1 0).2 = some (.keyError "websocket") := rfl

/-- C10: an input message from a connection with no registry entry returns
immediately: no exception, no message sent, and the server state (registry
and every player) unchanged. -/
theorem unknown_connection_input_noop (s : GameServer) (ws : Conn)
    (d : Option InputData) (h : lookupClient ws s.clients = none) :
    handle_input s ws d = (s, [], none) := by
  simp [handle_input, h]

/-- Witness for C10: an input command from unregistered connection 5 on
the one-client server changes nothing. -/
theorem unknown_connection_input_noop_witness :
    handle_input s_one 5 (some ⟨some ⟨some 1, some 0⟩, some 9⟩) = (s_one, [], none) :=
  unknown_connection_input_noop s_one 5 (some ⟨some ⟨some 1, some 0⟩, some 9⟩) rfl

end Netcode

